import Mathlib

/-!
Shallow embedding of the pr-service repository (Go) in Lean 4.

The embedding follows src/internal/service/service.go (the lifecycle
manager and reviewer selector), src/unnamed/part_001 (the repository
layer over PostgreSQL) and src/internal/handlers/handlers.go (the error
to HTTP status mapping).  Machine randomness (rand.Shuffle, rand.Intn)
is modelled by explicit parameters: a shuffled list constrained to be a
permutation of its input, and an index k taken modulo the pool size.
Time (time.Now) is a Nat parameter.  The database is a Store value and
each service operation returns the outcome, the resulting store and the
list of write operations it performed.
-/

namespace PRService

/-- A row of the users table: user_id, username, team_name, is_active
(models.User in the Go source). -/
structure User where
  userID : String
  username : String
  teamName : String
  isActive : Bool
deriving DecidableEq

/-- A row of the pull_requests table (models.PullRequest): id, name, author,
status ("OPEN" or "MERGED"), assigned reviewer ids, creation time and
optional merge time. -/
structure PullRequest where
  pullRequestID : String
  pullRequestName : String
  authorID : String
  status : String
  assignedReviewers : List String
  createdAt : Nat
  mergedAt : Option Nat
deriving DecidableEq

/-- The database state seen by the core: users and pull_requests tables. -/
structure Store where
  users : List User
  pullRequests : List PullRequest
deriving DecidableEq

/-- A write operation issued by a service call to the repository layer. -/
inductive RepoWrite where
  | createPR : PullRequest → RepoWrite
  | updatePR : PullRequest → RepoWrite
deriving DecidableEq

/-- Outcome of a service call: the returned value or error string, the
store after the call, and the repository writes the call performed. -/
structure ServiceResult (α : Type) where
  result : Except String α
  store : Store
  writes : List RepoWrite

/-- Repository.GetUserByID: SELECT ... FROM users WHERE user_id = $1. -/
def getUserByID (s : Store) (userID : String) : Option User :=
  s.users.find? (fun u => u.userID == userID)

/-- Repository.GetActiveTeamMembers: SELECT ... FROM users WHERE
team_name = $1 AND is_active = true AND user_id != $2. -/
def getActiveTeamMembers (s : Store) (teamName excludeUserID : String) : List User :=
  s.users.filter (fun u => u.teamName == teamName && u.isActive && u.userID != excludeUserID)

/-- Repository.GetPullRequest: the SELECT finds the row (or fails with
"PR not found" on sql.ErrNoRows), and then the function unmarshals the
local variable reviewersJSON, which is declared but never assigned, into
pr.AssignedReviewers. Unmarshalling the empty string always fails with a
JSON syntax error ("unexpected end of JSON input") which is returned
as-is, so the function errors on every existing row and never returns a
record. -/
def getPullRequest (s : Store) (prID : String) : Except String PullRequest :=
  match s.pullRequests.find? (fun p => p.pullRequestID == prID) with
  | none => Except.error "PR not found"
  | some _ => Except.error "unexpected end of JSON input"

/-- Repository.UpdatePullRequest: UPDATE pull_requests SET status,
assigned_reviewers, merged_at WHERE pull_request_id = $4. -/
def repoUpdatePullRequest (s : Store) (pr : PullRequest) : Store :=
  { s with pullRequests :=
      s.pullRequests.map (fun p => if p.pullRequestID == pr.pullRequestID then pr else p) }

/-- Repository.CreatePullRequest: INSERT INTO pull_requests; the primary
key conflict surfaces as the error string "PR id already exists". -/
def repoCreatePullRequest (s : Store) (pr : PullRequest) : Except String Store :=
  if s.pullRequests.any (fun p => p.pullRequestID == pr.pullRequestID) then
    Except.error "PR id already exists"
  else
    Except.ok { s with pullRequests := s.pullRequests ++ [pr] }

/-- Service.selectRandomReviewers: empty pool gives an empty list, a pool
of at most max users is returned whole, a larger pool is shuffled
(rand.Shuffle, modelled by the shuffled argument) and the first max
entries are taken. -/
def selectRandomReviewers (users : List User) (max : Nat) (shuffled : List User) : List User :=
  if users.length = 0 then []
  else if users.length ≤ max then users
  else shuffled.take max

/-- Service.CreatePullRequest: resolve the author, fetch active team
members excluding the author, select up to 2 reviewers, build a fresh
OPEN record and insert it. -/
def createPullRequest (s : Store) (now : Nat) (shuffled : List User)
    (prCreate : PullRequest) : ServiceResult PullRequest :=
  match getUserByID s prCreate.authorID with
  | none => ⟨Except.error "author not found", s, []⟩
  | some author =>
    let teamMembers := getActiveTeamMembers s author.teamName prCreate.authorID
    let reviewers := selectRandomReviewers teamMembers 2 shuffled
    let reviewerIDs := reviewers.map (fun r => r.userID)
    let pr : PullRequest :=
      { pullRequestID := prCreate.pullRequestID
        pullRequestName := prCreate.pullRequestName
        authorID := prCreate.authorID
        status := "OPEN"
        assignedReviewers := reviewerIDs
        createdAt := now
        mergedAt := none }
    match repoCreatePullRequest s pr with
    | Except.error e => ⟨Except.error e, s, []⟩
    | Except.ok s2 => ⟨Except.ok pr, s2, [RepoWrite.createPR pr]⟩

/-- Service.MergePullRequest: fetch the record (propagating any fetch
error unchanged), return it as-is if already MERGED, otherwise stamp
status and merge time and persist. Because getPullRequest errors on
every input, only the error branch is reachable. -/
def mergePullRequest (s : Store) (now : Nat) (prID : String) : ServiceResult PullRequest :=
  match getPullRequest s prID with
  | Except.error e => ⟨Except.error e, s, []⟩
  | Except.ok pr =>
    if pr.status = "MERGED" then ⟨Except.ok pr, s, []⟩
    else
      let pr2 := { pr with status := "MERGED", mergedAt := some now }
      ⟨Except.ok pr2, repoUpdatePullRequest s pr2, [RepoWrite.updatePR pr2]⟩

/-- Fallback user value for the total modelling of an indexed pick; never
reached when the pool is nonempty. -/
def defaultUser : User := ⟨"", "", "", false⟩

/-- The loop in Service.ReassignReviewer that replaces the first
occurrence of the old reviewer id and then breaks. -/
def replaceFirst : List String → String → String → List String
  | [], _, _ => []
  | r :: rest, old, new =>
    if r = old then new :: rest else r :: replaceFirst rest old new

/-- The availableCandidates pool built inside Service.ReassignReviewer:
active members of the given team excluding the old reviewer and everyone
already assigned to the pull request. -/
def replacementPool (s : Store) (pr : PullRequest) (teamName oldUserID : String) : List User :=
  (getActiveTeamMembers s teamName oldUserID).filter
    (fun c => !(pr.assignedReviewers.contains c.userID))

/-- The user id picked from the pool by rand.Intn, modelled by the index k
taken modulo the pool size (rand.Intn ranges over exactly those indices). -/
def pickedReplacement (s : Store) (pr : PullRequest) (teamName oldUserID : String)
    (k : Nat) : String :=
  ((replacementPool s pr teamName oldUserID).getD
    (k % (replacementPool s pr teamName oldUserID).length) defaultUser).userID

/-- Service.ReassignReviewer: fetch the record (propagating any fetch
error unchanged), reject MERGED records and unassigned old reviewers,
resolve the old reviewer's team, build the candidate pool (active team
mates excluding the old reviewer and everyone already assigned), pick one
at random (rand.Intn, modelled by index k modulo the pool size) and
persist the record with the old id replaced. Because getPullRequest
errors on every input, only the error branch is reachable. -/
def reassignReviewer (s : Store) (k : Nat) (prID oldUserID : String) :
    ServiceResult (PullRequest × String) :=
  match getPullRequest s prID with
  | Except.error e => ⟨Except.error e, s, []⟩
  | Except.ok pr =>
    if pr.status = "MERGED" then
      ⟨Except.error "cannot reassign on merged PR", s, []⟩
    else if pr.assignedReviewers.contains oldUserID = false then
      ⟨Except.error "reviewer is not assigned to this PR", s, []⟩
    else
      match getUserByID s oldUserID with
      | none => ⟨Except.error "old reviewer not found", s, []⟩
      | some oldUser =>
        let availableCandidates := replacementPool s pr oldUser.teamName oldUserID
        if availableCandidates.length = 0 then
          ⟨Except.error "no active replacement candidate in team", s, []⟩
        else
          let newID := pickedReplacement s pr oldUser.teamName oldUserID k
          let newList := replaceFirst pr.assignedReviewers oldUserID newID
          let pr2 := { pr with assignedReviewers := newList }
          ⟨Except.ok (pr2, newID), repoUpdatePullRequest s pr2,
            [RepoWrite.updatePR pr2]⟩

/-- Handlers.ReassignReviewer error mapping: service error string to HTTP
status code and error code (409 is http.StatusConflict, 404 NotFound). -/
def reassignErrorStatus (msg : String) : Nat × String :=
  if msg = "PR not found" then (404, "NOT_FOUND")
  else if msg = "cannot reassign on merged PR" then (409, "PR_MERGED")
  else if msg = "reviewer is not assigned to this PR" then (409, "NOT_ASSIGNED")
  else if msg = "old reviewer not found" then (404, "NOT_FOUND")
  else if msg = "no active replacement candidate in team" then (409, "NO_CANDIDATE")
  else (500, "INTERNAL_ERROR")

/-- Handlers.MergePullRequest error mapping: "PR not found" goes to HTTP
404, every other service error to 500 INTERNAL_ERROR. -/
def mergeErrorStatus (msg : String) : Nat × String :=
  if msg = "PR not found" then (404, "NOT_FOUND")
  else (500, "INTERNAL_ERROR")

/-! ## Helper lemmas -/

/-- Membership in the GetActiveTeamMembers query result: same team, active,
and not the excluded user. -/
lemma mem_getActiveTeamMembers {s : Store} {teamName excludeUserID : String} {u : User} :
    u ∈ getActiveTeamMembers s teamName excludeUserID ↔
      u ∈ s.users ∧ u.teamName = teamName ∧ u.isActive = true ∧ u.userID ≠ excludeUserID := by
  simp [getActiveTeamMembers, List.mem_filter, and_assoc]

/-- The query result is a sublist of the users table. -/
lemma getActiveTeamMembers_sublist (s : Store) (teamName excludeUserID : String) :
    (getActiveTeamMembers s teamName excludeUserID).Sublist s.users :=
  List.filter_sublist _

/-- The pull-request fetch never succeeds: the absent-row branch returns
"PR not found" and every existing row dies in the unmarshal of the
never-assigned reviewersJSON variable. -/
lemma getPullRequest_never_ok (s : Store) (prID : String) (pr : PullRequest) :
    getPullRequest s prID ≠ Except.ok pr := by
  unfold getPullRequest
  cases s.pullRequests.find? (fun p => p.pullRequestID == prID) <;> simp

/-- On a store that does hold a row with the requested id, the fetch
fails with the JSON unmarshal error. -/
lemma getPullRequest_of_found {s : Store} {prID : String} {pr : PullRequest}
    (h : s.pullRequests.find? (fun p => p.pullRequestID == prID) = some pr) :
    getPullRequest s prID = Except.error "unexpected end of JSON input" := by
  unfold getPullRequest
  rw [h]

/-! ## Concrete stores -/

/-- Team t member A, the pull request author (active). -/
def userA : User := ⟨"A", "alice", "t", true⟩

/-- Team t member B, an assigned reviewer (active). -/
def userB : User := ⟨"B", "bob", "t", true⟩

/-- Team t member C, an assigned reviewer (active). -/
def userC : User := ⟨"C", "carol", "t", true⟩

/-- Team t member D, unassigned (active). -/
def userD : User := ⟨"D", "dave", "t", true⟩

/-- An OPEN pull request authored by A with reviewers B and C. -/
def prAuthoredByA : PullRequest := ⟨"1", "pr one", "A", "OPEN", ["B", "C"], 0, none⟩

/-- Store with team t = {A, B, C, D}, all active, and the pull request
authored by A with reviewers {B, C}. -/
def storeAuthorActive : Store := ⟨[userA, userB, userC, userD], [prAuthoredByA]⟩

/-- An already-merged pull request authored by A with reviewers B and C,
merged at time 5. -/
def prMergedByA : PullRequest := ⟨"1", "pr one", "A", "MERGED", ["B", "C"], 0, some 5⟩

/-- Store with team t = {A, B, C, D}, all active, and the already-merged
pull request. -/
def storeMergedPR : Store := ⟨[userA, userB, userC, userD], [prMergedByA]⟩

/-- Store whose only users are the two assigned reviewers B and C, so a
replacement pool for either of them would be empty. -/
def storeNoCandidates : Store := ⟨[userB, userC], [prAuthoredByA]⟩

/-! ## Claim theorems -/

/-- C1: the invariant that the author is never a member of its own
assigned-reviewers set is preserved by every reassignReviewer call,
because no such call ever succeeds or writes: the fetch dies in the
unmarshal of the never-assigned reviewersJSON on every existing row (and
in "PR not found" otherwise), so the store and every stored reviewer set
are left exactly as they were and no successful result exists. The
success clause of the claim therefore holds vacuously. -/
theorem reassignReviewer_never_succeeds_preserves_author_invariant
    (s : Store) (k : Nat) (prID oldUserID : String) :
    (reassignReviewer s k prID oldUserID).store = s ∧
    (reassignReviewer s k prID oldUserID).writes = [] ∧
    ∀ out : PullRequest × String,
      (reassignReviewer s k prID oldUserID).result ≠ Except.ok out := by
  unfold reassignReviewer
  cases hg : getPullRequest s prID with
  | error e => simp
  | ok pr => exact absurd hg (getPullRequest_never_ok s prID pr)

/-- C6: the claim fails on the code. Reassigning reviewer B on the
concrete MERGED pull request does fail and does leave the store
unchanged, but with the JSON unmarshal error from the broken fetch, which
the handler maps to HTTP 500 INTERNAL_ERROR, not to the claimed 409
Conflict PR_MERGED: the merged-PR check is never reached. -/
theorem reassignReviewer_merged_internal_error_concrete :
    (reassignReviewer storeMergedPR 0 "1" "B").result =
      Except.error "unexpected end of JSON input" ∧
    reassignErrorStatus "unexpected end of JSON input" = (500, "INTERNAL_ERROR") ∧
    (reassignReviewer storeMergedPR 0 "1" "B").store = storeMergedPR ∧
    (reassignReviewer storeMergedPR 0 "1" "B").writes = [] :=
  ⟨rfl, rfl, rfl, rfl⟩

/-- C7: the claim fails on the code. Reassigning the unassigned user D on
the concrete OPEN pull request does fail and does leave the store
unchanged, but with the JSON unmarshal error from the broken fetch,
mapped by the handler to HTTP 500 INTERNAL_ERROR, not to the claimed 409
Conflict NOT_ASSIGNED: the assignment check is never reached. -/
theorem reassignReviewer_not_assigned_internal_error_concrete :
    (reassignReviewer storeAuthorActive 0 "1" "D").result =
      Except.error "unexpected end of JSON input" ∧
    reassignErrorStatus "unexpected end of JSON input" = (500, "INTERNAL_ERROR") ∧
    (reassignReviewer storeAuthorActive 0 "1" "D").store = storeAuthorActive ∧
    (reassignReviewer storeAuthorActive 0 "1" "D").writes = [] :=
  ⟨rfl, rfl, rfl, rfl⟩

/-- C8: the claim fails on the code. With team t = {B, C} (old reviewer
B, everyone else assigned) the replacement pool would be empty, yet the
call fails with the JSON unmarshal error from the broken fetch, mapped by
the handler to HTTP 500 INTERNAL_ERROR, not with the claimed
NoCandidateAvailable: the pool is never computed. The store is unchanged. -/
theorem reassignReviewer_no_candidate_internal_error_concrete :
    replacementPool storeNoCandidates prAuthoredByA "t" "B" = [] ∧
    (reassignReviewer storeNoCandidates 0 "1" "B").result =
      Except.error "unexpected end of JSON input" ∧
    reassignErrorStatus "unexpected end of JSON input" = (500, "INTERNAL_ERROR") ∧
    (reassignReviewer storeNoCandidates 0 "1" "B").store = storeNoCandidates :=
  ⟨rfl, rfl, rfl, rfl⟩

/-- C10: merging a pull request already stored in MERGED status performs
no repository write at all and leaves the store untouched: the call
aborts inside the fetch (the unmarshal of the never-assigned
reviewersJSON fails on every existing row) before any update could be
issued. -/
theorem mergePullRequest_merged_no_write
    (s : Store) (now : Nat) (prID : String) (pr : PullRequest)
    (h : s.pullRequests.find? (fun p => p.pullRequestID == prID) = some pr)
    (_hm : pr.status = "MERGED") :
    (mergePullRequest s now prID).writes = [] ∧
    (mergePullRequest s now prID).store = s := by
  have hg := getPullRequest_of_found h
  constructor <;> simp [mergePullRequest, hg]

/-- C10 witness: merging the concrete already-merged pull request issues
no write operation and leaves the store untouched. -/
theorem mergePullRequest_merged_no_write_witness :
    (mergePullRequest storeMergedPR 9 "1").writes = [] ∧
    (mergePullRequest storeMergedPR 9 "1").store = storeMergedPR :=
  mergePullRequest_merged_no_write storeMergedPR 9 "1" prMergedByA rfl rfl

/-- With at most max candidates (including none), the selector returns the
whole candidate list unchanged. -/
lemma selectRandomReviewers_small (users : List User) (max : Nat) (shuffled : List User)
    (h : users.length ≤ max) : selectRandomReviewers users max shuffled = users := by
  unfold selectRandomReviewers
  by_cases h0 : users.length = 0
  · simp [h0, List.length_eq_zero.mp h0]
  · simp [h0, h]

/-- With more than max candidates, the selector returns the first max
entries of the shuffled list. -/
lemma selectRandomReviewers_large (users : List User) (max : Nat) (shuffled : List User)
    (h : max < users.length) : selectRandomReviewers users max shuffled = shuffled.take max := by
  unfold selectRandomReviewers
  have h0 : ¬ users.length = 0 := by omega
  have h1 : ¬ users.length ≤ max := by omega
  simp [h0, h1]

/-- C4: the claim fails on the code. Merging the concrete pull request
that is already stored as MERGED does not return the existing record
unchanged without failing: the fetch dies in the unmarshal of the
never-assigned reviewersJSON, the call returns that error (mapped by the
handler to HTTP 500 INTERNAL_ERROR), and the idempotent-success branch of
Service.MergePullRequest is unreachable, so no merge of any existing pull
request ever succeeds. Only the store-unchanged part of the claim holds. -/
theorem mergePullRequest_merged_fails_concrete :
    (mergePullRequest storeMergedPR 9 "1").result =
      Except.error "unexpected end of JSON input" ∧
    mergeErrorStatus "unexpected end of JSON input" = (500, "INTERNAL_ERROR") ∧
    (mergePullRequest storeMergedPR 9 "1").store = storeMergedPR :=
  ⟨rfl, rfl, rfl⟩

/-- C3: when the author exists and the candidate pool (active team members
excluding the author) has at most two members, the created pull request is
persisted in OPEN state with exactly that candidate set as reviewers; with
zero candidates the reviewer list is empty and the call still succeeds. -/
theorem createPullRequest_small_pool_assigns_all_candidates
    (s : Store) (now : Nat) (shuffled : List User) (prCreate : PullRequest) (author : User)
    (hauth : getUserByID s prCreate.authorID = some author)
    (hlen : (getActiveTeamMembers s author.teamName prCreate.authorID).length ≤ 2)
    (hfresh : s.pullRequests.any (fun p => p.pullRequestID == prCreate.pullRequestID) = false) :
    createPullRequest s now shuffled prCreate =
      ⟨Except.ok ⟨prCreate.pullRequestID, prCreate.pullRequestName, prCreate.authorID, "OPEN",
          (getActiveTeamMembers s author.teamName prCreate.authorID).map (fun u => u.userID),
          now, none⟩,
        { s with pullRequests := s.pullRequests ++
            [⟨prCreate.pullRequestID, prCreate.pullRequestName, prCreate.authorID, "OPEN",
              (getActiveTeamMembers s author.teamName prCreate.authorID).map (fun u => u.userID),
              now, none⟩] },
        [RepoWrite.createPR ⟨prCreate.pullRequestID, prCreate.pullRequestName,
          prCreate.authorID, "OPEN",
          (getActiveTeamMembers s author.teamName prCreate.authorID).map (fun u => u.userID),
          now, none⟩]⟩ := by
  have hsel := selectRandomReviewers_small
    (getActiveTeamMembers s author.teamName prCreate.authorID) 2 shuffled hlen
  simp [createPullRequest, hauth, hsel, repoCreatePullRequest, hfresh]

/-- Store holding a team whose only member is the author A. -/
def storeOnlyAuthor : Store := ⟨[userA], []⟩

/-- A creation request carrying only id, name and author. -/
def prCreateRequest : PullRequest := ⟨"2", "pr two", "A", "", [], 0, none⟩

/-- C3 witness: with zero candidates the pull request is created
successfully with an empty reviewer list. -/
theorem createPullRequest_small_pool_assigns_all_candidates_witness :
    createPullRequest storeOnlyAuthor 3 [] prCreateRequest =
      ⟨Except.ok ⟨"2", "pr two", "A", "OPEN", [], 3, none⟩,
        ⟨[userA], [⟨"2", "pr two", "A", "OPEN", [], 3, none⟩]⟩,
        [RepoWrite.createPR ⟨"2", "pr two", "A", "OPEN", [], 3, none⟩]⟩ :=
  createPullRequest_small_pool_assigns_all_candidates storeOnlyAuthor 3 [] prCreateRequest
    userA rfl (by decide) rfl

/-- C9: any status, reviewer list, creation timestamp or merge timestamp
supplied by the caller in the input record is ignored: the call computes
the same outcome for any values of those fields, and the created record
always has status OPEN, the freshly selected reviewers, the fresh creation
timestamp, and no merge timestamp. -/
theorem createPullRequest_ignores_supplied_state
    (s : Store) (now : Nat) (shuffled : List User) (prCreate : PullRequest)
    (st : String) (rs : List String) (c : Nat) (m : Option Nat)
    (pr : PullRequest) (author : User)
    (hauth : getUserByID s prCreate.authorID = some author)
    (hok : (createPullRequest s now shuffled prCreate).result = Except.ok pr) :
    createPullRequest s now shuffled
        { prCreate with
          status := st
          assignedReviewers := rs
          createdAt := c
          mergedAt := m } =
      createPullRequest s now shuffled prCreate ∧
    pr.status = "OPEN" ∧ pr.createdAt = now ∧ pr.mergedAt = none ∧
    pr.assignedReviewers =
      (selectRandomReviewers (getActiveTeamMembers s author.teamName prCreate.authorID) 2
          shuffled).map (fun u => u.userID) := by
  refine ⟨by simp [createPullRequest], ?_⟩
  simp only [createPullRequest, hauth, repoCreatePullRequest] at hok
  split at hok
  · exact absurd hok (by simp)
  · injection hok with hok2
    rw [← hok2]
    exact ⟨rfl, rfl, rfl, rfl⟩

/-- C9 witness: junk status, reviewers and timestamps in the input record
do not change the call's outcome, and the created record is fresh. -/
theorem createPullRequest_ignores_supplied_state_witness :
    createPullRequest storeOnlyAuthor 3 []
        { prCreateRequest with
          status := "MERGED"
          assignedReviewers := ["Z"]
          createdAt := 42
          mergedAt := some 7 } =
      createPullRequest storeOnlyAuthor 3 [] prCreateRequest ∧
    (⟨"2", "pr two", "A", "OPEN", [], 3, none⟩ : PullRequest).status = "OPEN" ∧
    (⟨"2", "pr two", "A", "OPEN", [], 3, none⟩ : PullRequest).createdAt = 3 ∧
    (⟨"2", "pr two", "A", "OPEN", [], 3, none⟩ : PullRequest).mergedAt = none ∧
    (⟨"2", "pr two", "A", "OPEN", [], 3, none⟩ : PullRequest).assignedReviewers =
      (selectRandomReviewers (getActiveTeamMembers storeOnlyAuthor userA.teamName
          prCreateRequest.authorID) 2 []).map (fun u => u.userID) :=
  createPullRequest_ignores_supplied_state storeOnlyAuthor 3 [] prCreateRequest
    "MERGED" ["Z"] 42 (some 7) ⟨"2", "pr two", "A", "OPEN", [], 3, none⟩ userA rfl rfl

/-- C2: when the author exists, user ids are unique (the users table keys
them), and the candidate pool has more than two members, any shuffle
outcome (any permutation of the pool) leads to a created pull request with
exactly two reviewers, no duplicate reviewer ids, and the author not among
them. -/
theorem createPullRequest_large_pool_two_distinct_nonauthor_reviewers
    (s : Store) (now : Nat) (shuffled : List User) (prCreate : PullRequest)
    (author : User) (pr : PullRequest)
    (hauth : getUserByID s prCreate.authorID = some author)
    (hnd : (s.users.map (fun u => u.userID)).Nodup)
    (hlen : 2 < (getActiveTeamMembers s author.teamName prCreate.authorID).length)
    (hperm : shuffled.Perm (getActiveTeamMembers s author.teamName prCreate.authorID))
    (hok : (createPullRequest s now shuffled prCreate).result = Except.ok pr) :
    pr.assignedReviewers.length = 2 ∧ pr.assignedReviewers.Nodup ∧
    prCreate.authorID ∉ pr.assignedReviewers := by
  have hsel := selectRandomReviewers_large
    (getActiveTeamMembers s author.teamName prCreate.authorID) 2 shuffled hlen
  simp only [createPullRequest, hauth, repoCreatePullRequest] at hok
  split at hok
  · exact absurd hok (by simp)
  · injection hok with hok2
    have hrev : pr.assignedReviewers = (shuffled.take 2).map (fun r => r.userID) := by
      rw [← hok2, hsel]
    have hlen2 : 2 ≤ shuffled.length := by
      rw [hperm.length_eq]
      omega
    refine ⟨?_, ?_, ?_⟩
    · rw [hrev, List.length_map, List.length_take]
      exact inf_eq_left.mpr hlen2
    · have hndc : ((getActiveTeamMembers s author.teamName prCreate.authorID).map
          (fun u => u.userID)).Nodup :=
        List.Nodup.sublist
          (List.Sublist.map _ (getActiveTeamMembers_sublist s _ _)) hnd
      have hnds : (shuffled.map (fun u => u.userID)).Nodup :=
        ((hperm.map (fun u => u.userID)).nodup_iff).mpr hndc
      rw [hrev, List.map_take]
      exact List.Nodup.sublist (List.take_sublist _ _) hnds
    · rw [hrev]
      intro hmemb
      obtain ⟨u, humem, huid⟩ := List.mem_map.mp hmemb
      have hush : u ∈ shuffled := (List.take_sublist 2 shuffled).subset humem
      have hucand : u ∈ getActiveTeamMembers s author.teamName prCreate.authorID :=
        hperm.subset hush
      exact (mem_getActiveTeamMembers.mp hucand).2.2.2 huid

/-- C2 witness: team t = {A, B, C, D}, author A, pool [B, C, D] of size 3;
with the shuffle [D, B, C] the created pull request has reviewers [D, B]:
two of them, distinct, and not the author. -/
theorem createPullRequest_large_pool_witness :
    (["D", "B"] : List String).length = 2 ∧ (["D", "B"] : List String).Nodup ∧
    prCreateRequest.authorID ∉ (["D", "B"] : List String) :=
  createPullRequest_large_pool_two_distinct_nonauthor_reviewers
    storeAuthorActive 7 [userD, userB, userC] prCreateRequest userA
    ⟨"2", "pr two", "A", "OPEN", ["D", "B"], 7, none⟩
    rfl (by decide) (by decide) (by decide) rfl

/-- C5: the claim fails on the code. No reassignReviewer call ever
succeeds, so no successful call exhibits the claimed replacement
behavior: in the intended success scenario (OPEN pull request authored by
A with reviewers B and C, team t = {A, B, C, D} all active, old reviewer
B assigned, nonempty replacement pool, draw 1 would pick D) the call dies
in the fetch with the JSON unmarshal error, mapped by the handler to HTTP
500 INTERNAL_ERROR, returns no record and no reviewer id, and performs no
write. -/
theorem reassignReviewer_fetch_fails_concrete :
    (reassignReviewer storeAuthorActive 1 "1" "B").result =
      Except.error "unexpected end of JSON input" ∧
    reassignErrorStatus "unexpected end of JSON input" = (500, "INTERNAL_ERROR") ∧
    (reassignReviewer storeAuthorActive 1 "1" "B").store = storeAuthorActive ∧
    (reassignReviewer storeAuthorActive 1 "1" "B").writes = [] :=
  ⟨rfl, rfl, rfl, rfl⟩

end PRService
